import Mathlib

/-!
Verification of the datapulse multi-platform KPI pipeline.

The development shallowly embeds the SQL transformations issued by
`run_dbt_models` (src/api/routers/dbt_run.py) and the Python query facade
(src/api/services/kpi_service.py):

  raw platform tables -> staging views -> unified orders and items ->
  the four mart rollups -> the query facade.

Money is modelled by `ℚ` (the SQL columns are exact `decimal`/`numeric`),
timestamps by `ℤ` (UTC epoch seconds) and calendar dates by `ℤ`
(days since the epoch).  Nullable SQL columns are `Option`.
Load and generation metadata columns (`_loaded_at`, `_generated_at`,
set to `current_timestamp`) are omitted: no downstream computation or
claim reads them.
-/

namespace DataPulse

/-- PostgreSQL `round(x, 2)` on `numeric`: round half away from zero
to two decimal places. -/
def sqlRound2 (q : ℚ) : ℚ :=
  if 0 ≤ q then (⌊q * 100 + 1/2⌋ : ℚ) / 100
  else -((⌊-(q * 100) + 1/2⌋ : ℚ) / 100)

/-- Python `round(x, 2)`: round half to even (bankers rounding)
to two decimal places. -/
def pyRound2 (q : ℚ) : ℚ :=
  let x := q * 100
  let f := ⌊x⌋
  let r :=
    if x - f < 1/2 then f
    else if 1/2 < x - f then f + 1
    else if 2 ∣ f then f else f + 1
  (r : ℚ) / 100

/-- Gregorian leap-year test. -/
def isLeap (y : ℤ) : Bool :=
  y % 4 = 0 ∧ (y % 100 ≠ 0 ∨ y % 400 = 0)

/-- Number of days in a given month of a given year. -/
def daysInMonth (y m : ℤ) : ℤ :=
  if m = 2 then (if isLeap y then 29 else 28)
  else if m = 4 ∨ m = 6 ∨ m = 9 ∨ m = 11 then 30
  else 31

/-- Convert a civil date to days since 1970-01-01 (proleptic Gregorian
calendar, standard era-based conversion). -/
def daysFromCivil (y m d : ℤ) : ℤ :=
  let y1 := if m ≤ 2 then y - 1 else y
  let era := Int.fdiv y1 400
  let yoe := y1 - era * 400
  let mp := if 2 < m then m - 3 else m + 9
  let doy := Int.fdiv (153 * mp + 2) 5 + d - 1
  let doe := yoe * 365 + Int.fdiv yoe 4 - Int.fdiv yoe 100 + doy
  era * 146097 + doe - 719468

/-- Convert days since 1970-01-01 back to a civil `(year, month, day)`
triple (inverse of `daysFromCivil`). -/
def civilFromDays (z0 : ℤ) : ℤ × ℤ × ℤ :=
  let z := z0 + 719468
  let era := Int.fdiv z 146097
  let doe := z - era * 146097
  let yoe := Int.fdiv (doe - Int.fdiv doe 1460 + Int.fdiv doe 36524 - Int.fdiv doe 146096) 365
  let y := yoe + era * 400
  let doy := doe - (365 * yoe + Int.fdiv yoe 4 - Int.fdiv yoe 100)
  let mp := Int.fdiv (5 * doy + 2) 153
  let d := doy - Int.fdiv (153 * mp + 2) 5 + 1
  let m := if mp < 10 then mp + 3 else mp - 9
  (if m ≤ 2 then y + 1 else y, m, d)

/-- SQL `date(ts)`: the calendar date (epoch days) holding an epoch-second
timestamp. -/
def dateOfTs (ts : ℤ) : ℤ := Int.fdiv ts 86400

/-- SQL `date_trunc('month', d)::date` on a date: first day of the month. -/
def monthTruncD (d : ℤ) : ℤ :=
  let c := civilFromDays d
  daysFromCivil c.1 c.2.1 1

/-- SQL `date_trunc('quarter', d)::date`: first day of the quarter. -/
def quarterTruncD (d : ℤ) : ℤ :=
  let c := civilFromDays d
  daysFromCivil c.1 (((c.2.1 - 1).fdiv 3) * 3 + 1) 1

/-- SQL `date_trunc('year', d)::date`: January 1 of the year. -/
def yearTruncD (d : ℤ) : ℤ :=
  let c := civilFromDays d
  daysFromCivil c.1 1 1

/-- SQL `date_trunc('week', d)::date`: the preceding Monday
(1970-01-01 was a Thursday). -/
def weekTruncD (d : ℤ) : ℤ := d - Int.emod (d + 3) 7

/-- PostgreSQL `d - interval '1 month'` on a date: previous calendar month,
day clamped to the month length. -/
def subOneMonth (d : ℤ) : ℤ :=
  let c := civilFromDays d
  let y := if c.2.1 = 1 then c.1 - 1 else c.1
  let m := if c.2.1 = 1 then 12 else c.2.1 - 1
  daysFromCivil y m (min c.2.2 (daysInMonth y m))

/-- SQL `extract(hour from ts)` for an epoch-second timestamp. -/
def hourOfTs (ts : ℤ) : ℤ := Int.fdiv (Int.emod ts 86400) 3600

/-- SQL `extract(dow from ts)`: day of week, Sunday = 0. -/
def dowOfTs (ts : ℤ) : ℤ := Int.emod (dateOfTs ts + 4) 7

/-- SQL `avg` over a bag of non-null numeric values: `NULL` on the empty
bag, otherwise the arithmetic mean. -/
def sqlAvg (l : List ℚ) : Option ℚ :=
  if l.isEmpty then none else some (l.sum / l.length)

/-- SQL `min` over a bag of values: `NULL` on the empty bag. -/
def sqlMin (l : List ℤ) : Option ℤ :=
  l.foldl (fun acc d => match acc with
    | none => some d
    | some m => some (min m d)) none

/-- SQL `max` over a bag of values: `NULL` on the empty bag. -/
def sqlMax (l : List ℤ) : Option ℤ :=
  l.foldl (fun acc d => match acc with
    | none => some d
    | some m => some (max m d)) none

/-! Raw platform tables (the `raw` schema), with the columns the staging
views read.  Numeric identifiers are `ℤ` and are cast to strings by the
staging layer, mirroring the `::varchar` casts of the SQL. -/

/-- A row of `raw.shopify_orders`. -/
structure RawShopifyOrder where
  id : ℤ
  created_at : ℤ
  updated_at : ℤ
  processed_at : Option ℤ
  cancelled_at : Option ℤ
  closed_at : Option ℤ
  customer_id : Option ℤ
  email : String
  total_price : ℚ
  subtotal_price : ℚ
  total_tax : ℚ
  total_discounts : ℚ
  currency : String
  financial_status : String
  fulfillment_status : Option String
  cancel_reason : Option String
  line_items_count : Option ℤ
  source_name : String
  tags : Option String
  note : Option String
deriving DecidableEq

/-- A row of `raw.shopify_order_line_items`. -/
structure RawShopifyItem where
  id : ℤ
  order_id : ℤ
  product_id : ℤ
  variant_id : Option ℤ
  title : String
  variant_title : Option String
  sku : Option String
  quantity : ℤ
  price : ℚ
  total_discount : Option ℚ
  fulfillment_status : Option String
  fulfillable_quantity : ℤ
  gift_card : Bool
  taxable : Bool
  requires_shipping : Bool
deriving DecidableEq

/-- The `{Amount, CurrencyCode}` JSON money object of the Amazon tables. -/
structure AmazonMoney where
  amount : ℚ
  currencyCode : String
deriving DecidableEq

/-- A row of `raw.amazon_orders`. -/
structure RawAmazonOrder where
  amazon_order_id : String
  purchase_date : ℤ
  last_update_date : ℤ
  buyer_email : String
  order_total : AmazonMoney
  payment_method : String
  order_status : String
  number_of_items_shipped : ℤ
  number_of_items_unshipped : ℤ
  sales_channel : String
deriving DecidableEq

/-- A row of `raw.amazon_order_items`. -/
structure RawAmazonItem where
  order_item_id : String
  amazon_order_id : String
  asin : String
  title : String
  seller_sku : Option String
  quantity_ordered : ℤ
  item_price : AmazonMoney
  promotion_discount : Option AmazonMoney
  quantity_shipped : ℤ
deriving DecidableEq

/-- A row of `raw.lazada_orders`. -/
structure RawLazadaOrder where
  order_id : ℤ
  created_at : ℤ
  updated_at : ℤ
  customer_id : ℤ
  buyer_email : String
  price : ℚ
  voucher : Option ℚ
  payment_method : String
  statuses : String
  items_count : ℤ
  remarks : Option String
deriving DecidableEq

/-- A row of `raw.lazada_order_items`. -/
structure RawLazadaItem where
  order_item_id : ℤ
  order_id : ℤ
  product_id : ℤ
  name : String
  variation : Option String
  sku : Option String
  paid_price : ℚ
  voucher_amount : Option ℚ
  status : String
deriving DecidableEq

/-- A row of `raw.shopee_orders`. -/
structure RawShopeeOrder where
  order_sn : String
  create_time : ℤ
  update_time : ℤ
  pay_time : ℤ
  buyer_user_id : ℤ
  buyer_username : String
  total_amount : ℚ
  estimated_shipping_fee : Option ℚ
  voucher_absorbed : Option ℚ
  currency : String
  order_status : String
  cancel_reason : Option String
  message_to_seller : Option String
deriving DecidableEq

/-- A row of `raw.shopee_order_items`. -/
structure RawShopeeItem where
  order_sn : String
  item_id : ℤ
  model_id : Option ℤ
  item_name : String
  model_name : Option String
  model_sku : Option String
  model_quantity_purchased : ℤ
  model_discounted_price : ℚ
  model_original_price : ℚ
deriving DecidableEq

/-- The canonical staged order shape produced by every
`stg_<platform>__orders` view. -/
structure StagedOrder where
  order_id : String
  platform : String
  order_created_at : ℤ
  order_updated_at : ℤ
  order_processed_at : Option ℤ
  order_cancelled_at : Option ℤ
  order_closed_at : Option ℤ
  customer_id : Option String
  customer_email : String
  total_amount : ℚ
  subtotal_amount : ℚ
  tax_amount : ℚ
  discount_amount : ℚ
  currency_code : String
  payment_status : String
  fulfillment_status : Option String
  cancel_reason : Option String
  item_count : ℤ
  order_source : String
  order_tags : Option String
  order_notes : Option String
deriving DecidableEq

/-- The canonical staged order-item shape produced by every
`stg_<platform>__order_items` view. -/
structure StagedOrderItem where
  line_item_id : String
  order_id : String
  product_id : String
  variant_id : Option String
  platform : String
  product_name : String
  variant_title : Option String
  sku : Option String
  quantity : ℤ
  unit_price : Option ℚ
  line_total : ℚ
  discount_amount : ℚ
  fulfillment_status : Option String
  fulfillable_quantity : ℤ
  is_gift_card : Bool
  is_taxable : Bool
  requires_shipping : Bool
deriving DecidableEq

/-- The `stg_shopify__orders` view. -/
def stg_shopify_order (r : RawShopifyOrder) : StagedOrder where
  order_id := toString r.id
  platform := "shopify"
  order_created_at := r.created_at
  order_updated_at := r.updated_at
  order_processed_at := r.processed_at
  order_cancelled_at := r.cancelled_at
  order_closed_at := r.closed_at
  customer_id := r.customer_id.map toString
  customer_email := r.email
  total_amount := r.total_price
  subtotal_amount := r.subtotal_price
  tax_amount := r.total_tax
  discount_amount := r.total_discounts
  currency_code := r.currency
  payment_status := r.financial_status
  fulfillment_status := r.fulfillment_status
  cancel_reason := r.cancel_reason
  item_count := r.line_items_count.getD 0
  order_source := r.source_name
  order_tags := r.tags
  order_notes := r.note

/-- The `stg_shopify__order_items` view. -/
def stg_shopify_item (r : RawShopifyItem) : StagedOrderItem where
  line_item_id := toString r.id
  order_id := toString r.order_id
  product_id := toString r.product_id
  variant_id := r.variant_id.map toString
  platform := "shopify"
  product_name := r.title
  variant_title := r.variant_title
  sku := r.sku
  quantity := r.quantity
  unit_price := some r.price
  line_total := (r.quantity : ℚ) * r.price
  discount_amount := r.total_discount.getD 0
  fulfillment_status := r.fulfillment_status
  fulfillable_quantity := r.fulfillable_quantity
  is_gift_card := r.gift_card
  is_taxable := r.taxable
  requires_shipping := r.requires_shipping

/-- The `stg_amazon__orders` view. -/
def stg_amazon_order (r : RawAmazonOrder) : StagedOrder where
  order_id := r.amazon_order_id
  platform := "amazon"
  order_created_at := r.purchase_date
  order_updated_at := r.last_update_date
  order_processed_at := none
  order_cancelled_at := none
  order_closed_at := none
  customer_id := some r.buyer_email
  customer_email := r.buyer_email
  total_amount := r.order_total.amount
  subtotal_amount := r.order_total.amount
  tax_amount := 0
  discount_amount := 0
  currency_code := r.order_total.currencyCode
  payment_status := r.payment_method
  fulfillment_status := some r.order_status
  cancel_reason := none
  item_count := r.number_of_items_shipped + r.number_of_items_unshipped
  order_source := r.sales_channel
  order_tags := none
  order_notes := none

/-- The `stg_amazon__order_items` view.  The unit price divides the
bundled line price by the quantity and is `NULL` (via `nullif`) when the
quantity is zero. -/
def stg_amazon_item (r : RawAmazonItem) : StagedOrderItem where
  line_item_id := r.order_item_id
  order_id := r.amazon_order_id
  product_id := r.asin
  variant_id := none
  platform := "amazon"
  product_name := r.title
  variant_title := none
  sku := r.seller_sku
  quantity := r.quantity_ordered
  unit_price := if r.quantity_ordered = 0 then none
    else some (r.item_price.amount / (r.quantity_ordered : ℚ))
  line_total := r.item_price.amount
  discount_amount := (r.promotion_discount.map (·.amount)).getD 0
  fulfillment_status := some (if 0 < r.quantity_shipped then "shipped" else "pending")
  fulfillable_quantity := r.quantity_ordered - r.quantity_shipped
  is_gift_card := false
  is_taxable := true
  requires_shipping := true

/-- The `stg_lazada__orders` view. -/
def stg_lazada_order (r : RawLazadaOrder) : StagedOrder where
  order_id := toString r.order_id
  platform := "lazada"
  order_created_at := r.created_at
  order_updated_at := r.updated_at
  order_processed_at := none
  order_cancelled_at := none
  order_closed_at := none
  customer_id := some (toString r.customer_id)
  customer_email := r.buyer_email
  total_amount := r.price
  subtotal_amount := r.price
  tax_amount := 0
  discount_amount := r.voucher.getD 0
  currency_code := "PHP"
  payment_status := r.payment_method
  fulfillment_status := some r.statuses
  cancel_reason := none
  item_count := r.items_count
  order_source := "lazada"
  order_tags := none
  order_notes := r.remarks

/-- The `stg_lazada__order_items` view: line items implicitly have
quantity 1. -/
def stg_lazada_item (r : RawLazadaItem) : StagedOrderItem where
  line_item_id := toString r.order_item_id
  order_id := toString r.order_id
  product_id := toString r.product_id
  variant_id := none
  platform := "lazada"
  product_name := r.name
  variant_title := r.variation
  sku := r.sku
  quantity := 1
  unit_price := some r.paid_price
  line_total := r.paid_price
  discount_amount := r.voucher_amount.getD 0
  fulfillment_status := some r.status
  fulfillable_quantity := 0
  is_gift_card := false
  is_taxable := true
  requires_shipping := true

/-- The `stg_shopee__orders` view: epoch timestamps pass through
`to_timestamp`, cancellation and close times are synthesised from the
update time conditioned on the lifecycle status, and the payment status
is inferred from the order status. -/
def stg_shopee_order (r : RawShopeeOrder) : StagedOrder where
  order_id := r.order_sn
  platform := "shopee"
  order_created_at := r.create_time
  order_updated_at := r.update_time
  order_processed_at := some r.pay_time
  order_cancelled_at := if r.order_status = "CANCELLED" then some r.update_time else none
  order_closed_at := if r.order_status = "COMPLETED" then some r.update_time else none
  customer_id := some (toString r.buyer_user_id)
  customer_email := r.buyer_username
  total_amount := r.total_amount
  subtotal_amount := r.total_amount - r.estimated_shipping_fee.getD 0
  tax_amount := 0
  discount_amount := r.voucher_absorbed.getD 0
  currency_code := r.currency
  payment_status :=
    if r.order_status = "READY_TO_SHIP" ∨ r.order_status = "PROCESSED" ∨
       r.order_status = "SHIPPED" ∨ r.order_status = "COMPLETED" then "paid"
    else if r.order_status = "UNPAID" then "pending"
    else "unknown"
  fulfillment_status := some r.order_status
  cancel_reason := r.cancel_reason
  item_count := 1
  order_source := "shopee"
  order_tags := none
  order_notes := r.message_to_seller

/-- The `stg_shopee__order_items` view. -/
def stg_shopee_item (r : RawShopeeItem) : StagedOrderItem where
  line_item_id := r.order_sn ++ "_" ++ toString r.item_id
  order_id := r.order_sn
  product_id := toString r.item_id
  variant_id := r.model_id.map toString
  platform := "shopee"
  product_name := r.item_name
  variant_title := r.model_name
  sku := r.model_sku
  quantity := r.model_quantity_purchased
  unit_price := some r.model_discounted_price
  line_total := (r.model_quantity_purchased : ℚ) * r.model_discounted_price
  discount_amount :=
    (r.model_original_price - r.model_discounted_price) * (r.model_quantity_purchased : ℚ)
  fulfillment_status := some "pending"
  fulfillable_quantity := 0
  is_gift_card := false
  is_taxable := true
  requires_shipping := true

/-! The intermediate (unification) layer. -/

/-- A row of `int_unified_orders`: the staged columns plus the derived
USD amount, calendar buckets and boolean status flags. -/
structure UnifiedOrder extends StagedOrder where
  total_amount_usd : ℚ
  order_date : ℤ
  order_week : ℤ
  order_month : ℤ
  order_quarter : ℤ
  order_year : ℤ
  order_hour : ℤ
  order_day_of_week : ℤ
  is_paid : Bool
  is_fulfilled : Bool
  is_cancelled : Bool
deriving DecidableEq

/-- The static currency-to-USD multiplier applied by `int_unified_orders`:
a `CASE` on the currency code, defaulting to the native amount. -/
def toUsd (currency_code : String) (total_amount : ℚ) : ℚ :=
  if currency_code = "PHP" then total_amount * 0.018
  else if currency_code = "MYR" then total_amount * 0.21
  else if currency_code = "SGD" then total_amount * 0.74
  else if currency_code = "IDR" then total_amount * 0.000063
  else if currency_code = "USD" then total_amount
  else total_amount

/-- The derived-column pass of `int_unified_orders` over one staged row. -/
def enrichOrder (s : StagedOrder) : UnifiedOrder where
  toStagedOrder := s
  total_amount_usd := toUsd s.currency_code s.total_amount
  order_date := dateOfTs s.order_created_at
  order_week := weekTruncD (dateOfTs s.order_created_at)
  order_month := monthTruncD (dateOfTs s.order_created_at)
  order_quarter := quarterTruncD (dateOfTs s.order_created_at)
  order_year := yearTruncD (dateOfTs s.order_created_at)
  order_hour := hourOfTs s.order_created_at
  order_day_of_week := dowOfTs s.order_created_at
  is_paid := s.payment_status = "paid" ∨ s.payment_status = "authorized" ∨
    s.payment_status = "partially_paid"
  is_fulfilled :=
    match s.fulfillment_status with
    | none => false
    | some f => f = "fulfilled" ∨ f = "shipped" ∨ f = "delivered" ∨
        f = "COMPLETED" ∨ f = "Shipped"
  is_cancelled := s.order_cancelled_at.isSome

/-- The raw layer landed by the external sync process: one order table and
one item table per platform. -/
structure RawData where
  shopify_orders : List RawShopifyOrder
  shopify_order_line_items : List RawShopifyItem
  amazon_orders : List RawAmazonOrder
  amazon_order_items : List RawAmazonItem
  lazada_orders : List RawLazadaOrder
  lazada_order_items : List RawLazadaItem
  shopee_orders : List RawShopeeOrder
  shopee_order_items : List RawShopeeItem
deriving DecidableEq

/-- The `int_unified_orders` view: `UNION ALL` of the four staged order
views followed by the derived-column pass. -/
def int_unified_orders (raw : RawData) : List UnifiedOrder :=
  ((raw.shopify_orders.map stg_shopify_order) ++
   (raw.amazon_orders.map stg_amazon_order) ++
   (raw.lazada_orders.map stg_lazada_order) ++
   (raw.shopee_orders.map stg_shopee_order)).map enrichOrder

/-- The `int_unified_order_items` view: `UNION ALL` of the four staged
item views. -/
def int_unified_order_items (raw : RawData) : List StagedOrderItem :=
  (raw.shopify_order_line_items.map stg_shopify_item) ++
  (raw.amazon_order_items.map stg_amazon_item) ++
  (raw.lazada_order_items.map stg_lazada_item) ++
  (raw.shopee_order_items.map stg_shopee_item)

/-! The `kpi_platform_overview` mart. -/

/-- A row of `public_marts.kpi_platform_overview`. -/
structure PlatformOverviewRow where
  platform : String
  total_orders : ℕ
  completed_orders : ℕ
  cancelled_orders : ℕ
  total_revenue_usd : ℚ
  orders_this_month : ℕ
  revenue_this_month_usd : ℚ
  orders_last_month : ℕ
  revenue_last_month_usd : ℚ
  orders_today : ℕ
  revenue_today_usd : ℚ
  avg_order_value_usd : Option ℚ
  avg_items_per_order : Option ℚ
  payment_rate : Option ℚ
  fulfillment_rate : Option ℚ
  cancellation_rate : Option ℚ
  first_order_date : Option ℤ
  last_order_date : Option ℤ
  active_days : ℕ
  revenue_mom_growth_pct : ℚ
  orders_mom_growth_pct : ℚ
deriving DecidableEq

/-- Count of distinct non-null values, as SQL
`count(distinct case when p then v end)`. -/
def distinctCount (l : List String) : ℕ := l.dedup.length

/-- The `platform_metrics` group row of `kpi_platform_overview` for one
platform, plus the growth columns of the outer `SELECT`.  `current_date`
is the rebuild date `today` (epoch days). -/
def overviewRow (today : ℤ) (orders : List UnifiedOrder) (p : String) :
    PlatformOverviewRow :=
  let sub := orders.filter (fun o => o.platform = p)
  let thisMonth := monthTruncD today
  let lastMonth := monthTruncD (subOneMonth today)
  let completed := sub.filter (fun o => !o.is_cancelled)
  let cnt := sub.length
  let paidCnt := (sub.filter (fun o => o.is_paid)).length
  let fulfilledCnt := (sub.filter (fun o => o.is_fulfilled)).length
  let cancelledCnt := (sub.filter (fun o => o.is_cancelled)).length
  let ordersThisMonth :=
    distinctCount ((sub.filter (fun o => o.order_month = thisMonth)).map (·.order_id))
  let revenueThisMonth :=
    ((sub.filter (fun o => o.order_month = thisMonth ∧ !o.is_cancelled)).map
      (·.total_amount_usd)).sum
  let ordersLastMonth :=
    distinctCount ((sub.filter (fun o => o.order_month = lastMonth)).map (·.order_id))
  let revenueLastMonth :=
    ((sub.filter (fun o => o.order_month = lastMonth ∧ !o.is_cancelled)).map
      (·.total_amount_usd)).sum
  { platform := p
    total_orders := distinctCount (sub.map (·.order_id))
    completed_orders := distinctCount (completed.map (·.order_id))
    cancelled_orders :=
      distinctCount ((sub.filter (fun o => o.is_cancelled)).map (·.order_id))
    total_revenue_usd := (completed.map (·.total_amount_usd)).sum
    orders_this_month := ordersThisMonth
    revenue_this_month_usd := revenueThisMonth
    orders_last_month := ordersLastMonth
    revenue_last_month_usd := revenueLastMonth
    orders_today :=
      distinctCount ((sub.filter (fun o => o.order_date = today)).map (·.order_id))
    revenue_today_usd :=
      ((sub.filter (fun o => o.order_date = today ∧ !o.is_cancelled)).map
        (·.total_amount_usd)).sum
    avg_order_value_usd := sqlAvg (completed.map (·.total_amount_usd))
    avg_items_per_order := sqlAvg (completed.map (fun o => (o.item_count : ℚ)))
    payment_rate :=
      if cnt = 0 then none
      else some (sqlRound2 (100 * (paidCnt : ℚ) / (cnt : ℚ)))
    fulfillment_rate :=
      if paidCnt = 0 then none
      else some (sqlRound2 (100 * (fulfilledCnt : ℚ) / (paidCnt : ℚ)))
    cancellation_rate :=
      if cnt = 0 then none
      else some (sqlRound2 (100 * (cancelledCnt : ℚ) / (cnt : ℚ)))
    first_order_date := sqlMin (sub.map (·.order_date))
    last_order_date := sqlMax (sub.map (·.order_date))
    active_days := (sub.map (·.order_date)).dedup.length
    revenue_mom_growth_pct :=
      if 0 < revenueLastMonth then
        sqlRound2 (100 * (revenueThisMonth - revenueLastMonth) / revenueLastMonth)
      else 0
    orders_mom_growth_pct :=
      if 0 < ordersLastMonth then
        sqlRound2 (100 * ((ordersThisMonth : ℚ) - (ordersLastMonth : ℚ)) /
          (ordersLastMonth : ℚ))
      else 0 }

/-- The `kpi_platform_overview` table: one `platform_metrics` row per
distinct platform value. -/
def kpi_platform_overview (today : ℤ) (orders : List UnifiedOrder) :
    List PlatformOverviewRow :=
  ((orders.map (·.platform)).dedup).map (overviewRow today orders)

/-! The `kpi_daily_snapshot` mart. -/

/-- A row of the `daily_all_platforms` grouped CTE of `kpi_daily_snapshot`
(one row per calendar date, cancelled orders excluded before grouping). -/
structure DailyBaseRow where
  order_date : ℤ
  total_orders : ℕ
  total_revenue_usd : ℚ
  avg_order_value_usd : Option ℚ
  total_items_sold : ℤ
  shopify_orders : ℕ
  amazon_orders : ℕ
  lazada_orders : ℕ
  shopee_orders : ℕ
  shopify_revenue_usd : ℚ
  amazon_revenue_usd : ℚ
  lazada_revenue_usd : ℚ
  shopee_revenue_usd : ℚ
  unique_customers : ℕ
  fulfilled_orders : ℕ
  fulfillment_rate : Option ℚ
deriving DecidableEq

/-- A row of `public_marts.kpi_daily_snapshot`: the grouped columns plus
the trailing-window and lag columns. -/
structure DailySnapshotRow extends DailyBaseRow where
  revenue_7d_avg : ℚ
  orders_7d_avg : ℚ
  revenue_30d_avg : ℚ
  orders_30d_avg : ℚ
  revenue_dod_change : Option ℚ
  orders_dod_change : Option ℤ
  revenue_wow_change : Option ℚ
  orders_wow_change : Option ℤ
deriving DecidableEq

/-- The `daily_all_platforms` group row for one date `d` over the
non-cancelled orders `kept`. -/
def dailyBaseRow (kept : List UnifiedOrder) (d : ℤ) : DailyBaseRow :=
  let sub := kept.filter (fun o => o.order_date = d)
  let platOrders := fun (p : String) =>
    distinctCount ((sub.filter (fun o => o.platform = p)).map (·.order_id))
  let platRevenue := fun (p : String) =>
    ((sub.filter (fun o => o.platform = p)).map (·.total_amount_usd)).sum
  { order_date := d
    total_orders := distinctCount (sub.map (·.order_id))
    total_revenue_usd := (sub.map (·.total_amount_usd)).sum
    avg_order_value_usd := sqlAvg (sub.map (·.total_amount_usd))
    total_items_sold := (sub.map (·.item_count)).sum
    shopify_orders := platOrders "shopify"
    amazon_orders := platOrders "amazon"
    lazada_orders := platOrders "lazada"
    shopee_orders := platOrders "shopee"
    shopify_revenue_usd := platRevenue "shopify"
    amazon_revenue_usd := platRevenue "amazon"
    lazada_revenue_usd := platRevenue "lazada"
    shopee_revenue_usd := platRevenue "shopee"
    unique_customers := (sub.filterMap (·.customer_id)).dedup.length
    fulfilled_orders := (sub.filter (fun o => o.is_fulfilled)).length
    fulfillment_rate :=
      if sub.length = 0 then none
      else some (sqlRound2 (100 *
        ((sub.filter (fun o => o.is_fulfilled)).length : ℚ) / (sub.length : ℚ))) }

/-- The grouped CTE rows ordered ascending by date — the ordering over
which every window function of `kpi_daily_snapshot` is evaluated. -/
def dailyBase (orders : List UnifiedOrder) : List DailyBaseRow :=
  let kept := orders.filter (fun o => !o.is_cancelled)
  let dates := ((kept.map (·.order_date)).dedup).mergeSort (fun a b => a ≤ b)
  dates.map (dailyBaseRow kept)

/-- The window `rows between (n-1) preceding and current row` at row
index `i` of the date-ascending row list: the current row plus at most
`n - 1` immediately preceding rows. -/
def trailingWindow (base : List DailyBaseRow) (i n : ℕ) : List DailyBaseRow :=
  (base.take (i + 1)).drop (i + 1 - n)

/-- The `lag(·, n)` window value at row index `i` of the date-ascending
row list: `NULL` for the first `n` rows. -/
def lagRow (base : List DailyBaseRow) (i n : ℕ) : Option DailyBaseRow :=
  if n ≤ i then (base.drop (i - n)).head? else none

/-- Average of a projection over a trailing window (`avg(x) over (order by
order_date rows between k preceding and current row)`). -/
def windowAvg (f : DailyBaseRow → ℚ) (w : List DailyBaseRow) : ℚ :=
  (w.map f).sum / (w.length : ℚ)

/-- The outer `SELECT` of `kpi_daily_snapshot` for the row at index `i`. -/
def snapshotAt (base : List DailyBaseRow) (i : ℕ) (r : DailyBaseRow) :
    DailySnapshotRow :=
  { toDailyBaseRow := r
    revenue_7d_avg := windowAvg (·.total_revenue_usd) (trailingWindow base i 7)
    orders_7d_avg := windowAvg (fun x => (x.total_orders : ℚ)) (trailingWindow base i 7)
    revenue_30d_avg := windowAvg (·.total_revenue_usd) (trailingWindow base i 30)
    orders_30d_avg := windowAvg (fun x => (x.total_orders : ℚ)) (trailingWindow base i 30)
    revenue_dod_change :=
      (lagRow base i 1).map (fun p => r.total_revenue_usd - p.total_revenue_usd)
    orders_dod_change :=
      (lagRow base i 1).map (fun p => (r.total_orders : ℤ) - (p.total_orders : ℤ))
    revenue_wow_change :=
      (lagRow base i 7).map (fun p => r.total_revenue_usd - p.total_revenue_usd)
    orders_wow_change :=
      (lagRow base i 7).map (fun p => (r.total_orders : ℤ) - (p.total_orders : ℤ)) }

/-- The `kpi_daily_snapshot` rows in window order (ascending by date). -/
def dailySnapshotAsc (orders : List UnifiedOrder) : List DailySnapshotRow :=
  (dailyBase orders).enum.map (fun ir => snapshotAt (dailyBase orders) ir.1 ir.2)

/-- The `kpi_daily_snapshot` table, in its final `ORDER BY order_date
DESC` order. -/
def kpi_daily_snapshot (orders : List UnifiedOrder) : List DailySnapshotRow :=
  (dailySnapshotAsc orders).reverse

/-! The `kpi_revenue_summary` mart. -/

/-- A row of the `daily_revenue` grouped CTE of `kpi_revenue_summary`
(one row per `(order_date, platform)`, cancelled orders excluded). -/
structure RevenueDailyRow where
  order_date : ℤ
  platform : String
  total_orders : ℕ
  gross_revenue : ℚ
  gross_revenue_usd : ℚ
  net_revenue : ℚ
  avg_order_value : Option ℚ
  avg_order_value_usd : Option ℚ
  paid_orders : ℕ
  unpaid_orders : ℕ
  fulfilled_orders : ℕ
  pending_fulfillment : ℕ
deriving DecidableEq

/-- A row of `public_marts.kpi_revenue_summary`: the grouped columns plus
the per-platform lag and month-to-date window columns. -/
structure RevenueSummaryRow extends RevenueDailyRow where
  prev_day_revenue : Option ℚ
  revenue_change : Option ℚ
  mtd_revenue_usd : ℚ
  mtd_orders : ℕ
  revenue_growth_pct : ℚ
deriving DecidableEq

/-- The `daily_revenue` group row for one `(date, platform)` key. -/
def revenueDailyRow (kept : List UnifiedOrder) (d : ℤ) (p : String) :
    RevenueDailyRow :=
  let sub := kept.filter (fun o => o.order_date = d ∧ o.platform = p)
  { order_date := d
    platform := p
    total_orders := distinctCount (sub.map (·.order_id))
    gross_revenue := (sub.map (·.total_amount)).sum
    gross_revenue_usd := (sub.map (·.total_amount_usd)).sum
    net_revenue := (sub.map (fun o => o.total_amount - o.discount_amount)).sum
    avg_order_value := sqlAvg (sub.map (·.total_amount))
    avg_order_value_usd := sqlAvg (sub.map (·.total_amount_usd))
    paid_orders := (sub.filter (fun o => o.is_paid)).length
    unpaid_orders := (sub.filter (fun o => !o.is_paid)).length
    fulfilled_orders := (sub.filter (fun o => o.is_fulfilled)).length
    pending_fulfillment := (sub.filter (fun o => !o.is_fulfilled ∧ o.is_paid)).length }

/-- The window columns of `kpi_revenue_summary` for the row at index `i`
of one platform partition ordered ascending by date. -/
def revenueSummaryAt (part : List RevenueDailyRow) (i : ℕ) (r : RevenueDailyRow) :
    RevenueSummaryRow :=
  let prev := if 1 ≤ i then ((part.drop (i - 1)).head?.map (·.gross_revenue_usd)) else none
  let sameMonth := (part.take (i + 1)).filter
    (fun x => monthTruncD x.order_date = monthTruncD r.order_date)
  { toRevenueDailyRow := r
    prev_day_revenue := prev
    revenue_change := prev.map (fun pr => r.gross_revenue_usd - pr)
    mtd_revenue_usd := (sameMonth.map (·.gross_revenue_usd)).sum
    mtd_orders := (sameMonth.map (·.total_orders)).sum
    revenue_growth_pct :=
      match prev with
      | some pr =>
        if 0 < pr then sqlRound2 ((r.gross_revenue_usd - pr) / pr * 100) else 0
      | none => 0 }

/-- The `kpi_revenue_summary` table: `(date, platform)` groups with the
window functions evaluated per platform partition ordered ascending by
date. -/
def kpi_revenue_summary (orders : List UnifiedOrder) : List RevenueSummaryRow :=
  let kept := orders.filter (fun o => o.is_cancelled = false)
  let platforms := (kept.map (·.platform)).dedup
  platforms.flatMap (fun p =>
    let dates := ((kept.filter (fun o => o.platform = p)).map
      (·.order_date)).dedup.mergeSort (fun a b => a ≤ b)
    let part := dates.map (fun d => revenueDailyRow kept d p)
    part.enum.map (fun ir => revenueSummaryAt part ir.1 ir.2))

/-! The `kpi_product_performance` mart. -/

/-- A row of the `product_metrics` grouped CTE of
`kpi_product_performance` (one row per
`(platform, product_id, product_name, sku)`). -/
structure ProductMetricsRow where
  platform : String
  product_id : String
  product_name : String
  sku : Option String
  total_orders : ℕ
  total_units_sold : ℤ
  total_revenue : ℚ
  avg_selling_price : Option ℚ
  days_with_sales : ℕ
  first_sale_date : Option ℤ
  last_sale_date : Option ℤ
  units_this_month : ℤ
  revenue_this_month : ℚ
  avg_daily_units : ℚ
deriving DecidableEq, BEq

/-- A row of `public_marts.kpi_product_performance`: the metrics columns
plus ranks, percentile and the derived tier. -/
structure ProductPerfRow extends ProductMetricsRow where
  revenue_rank : ℕ
  units_rank : ℕ
  revenue_percentile : ℚ
  performance_tier : String
deriving DecidableEq

/-- An `items_with_orders` joined record: the item columns together with
the order columns the join copies over. -/
structure ItemWithOrder extends StagedOrderItem where
  order_date : ℤ
  order_month : ℤ
  order_is_paid : Bool
  order_currency_code : String
deriving DecidableEq

/-- The `items_with_orders` CTE: inner join of unified items with
non-cancelled unified orders on `(order_id, platform)`. -/
def items_with_orders (orders : List UnifiedOrder) (items : List StagedOrderItem) :
    List ItemWithOrder :=
  let kept := orders.filter (fun o => o.is_cancelled = false)
  items.flatMap (fun it =>
    (kept.filter (fun o => o.order_id = it.order_id ∧ o.platform = it.platform)).map
      (fun o =>
        { toStagedOrderItem := it
          order_date := o.order_date
          order_month := o.order_month
          order_is_paid := o.is_paid
          order_currency_code := o.currency_code }))

/-- The grouping key of `product_metrics`. -/
def productKey (x : ItemWithOrder) : String × String × String × Option String :=
  (x.platform, x.product_id, x.product_name, x.sku)

/-- The `product_metrics` group row for one key over the joined records.
`today` is the rebuild date (`current_date`). -/
def productMetricsRow (today : ℤ) (joined : List ItemWithOrder)
    (k : String × String × String × Option String) : ProductMetricsRow :=
  let grp := joined.filter (fun x => productKey x = k)
  let thisMonth := monthTruncD today
  let daysWithSales := (grp.map (·.order_date)).dedup.length
  { platform := k.1
    product_id := k.2.1
    product_name := k.2.2.1
    sku := k.2.2.2
    total_orders := distinctCount (grp.map (·.order_id))
    total_units_sold := (grp.map (·.quantity)).sum
    total_revenue := (grp.map (·.line_total)).sum
    avg_selling_price := sqlAvg (grp.filterMap (·.unit_price))
    days_with_sales := daysWithSales
    first_sale_date := sqlMin (grp.map (·.order_date))
    last_sale_date := sqlMax (grp.map (·.order_date))
    units_this_month :=
      ((grp.filter (fun x => x.order_month = thisMonth)).map (·.quantity)).sum
    revenue_this_month :=
      ((grp.filter (fun x => x.order_month = thisMonth)).map (·.line_total)).sum
    avg_daily_units :=
      if 0 < daysWithSales then
        sqlRound2 (((grp.map (·.quantity)).sum : ℚ) / (daysWithSales : ℚ))
      else 0 }

/-- The `product_metrics` CTE: one row per distinct grouping key. -/
def product_metrics (today : ℤ) (orders : List UnifiedOrder)
    (items : List StagedOrderItem) : List ProductMetricsRow :=
  let joined := items_with_orders orders items
  ((joined.map productKey).dedup).map (productMetricsRow today joined)

/-- PostgreSQL `percent_rank() over (partition ... order by total_revenue)`
for one row of a partition: `(rank - 1) / (N - 1)` where `rank - 1` counts
the rows with strictly smaller sort key, and `0` on a single-row
partition. -/
def percentRank (part : List ProductMetricsRow) (r : ProductMetricsRow) : ℚ :=
  if part.length ≤ 1 then 0
  else ((part.countP (fun x => x.total_revenue < r.total_revenue) : ℚ)) /
    ((part.length - 1 : ℕ) : ℚ)

/-- The `CASE` assigning `performance_tier` from rank and percentile. -/
def performanceTier (revenue_rank : ℕ) (revenue_percentile : ℚ) : String :=
  if revenue_rank ≤ 10 then "Top 10"
  else if 0.8 ≤ revenue_percentile then "Top Performer"
  else if 0.5 ≤ revenue_percentile then "Average"
  else "Underperformer"

/-- One output row of the `ranked` CTE plus the final `SELECT`:
`row_number()` ranks are positions in a stable sort of the partition
(descending revenue, resp. descending units), `percent_rank()` the
revenue percentile, and the tier `CASE`. -/
def rankRow (part : List ProductMetricsRow) (r : ProductMetricsRow) : ProductPerfRow :=
  let revSorted := part.mergeSort (fun a b => decide (b.total_revenue ≤ a.total_revenue))
  let unitsSorted := part.mergeSort (fun a b => decide (b.total_units_sold ≤ a.total_units_sold))
  let rk := revSorted.indexOf r + 1
  let pct := percentRank part r
  { toProductMetricsRow := r
    revenue_rank := rk
    units_rank := unitsSorted.indexOf r + 1
    revenue_percentile := pct
    performance_tier := performanceTier rk pct }

/-- The `ranked` CTE plus the final `SELECT` over one platform partition. -/
def rankPartition (part : List ProductMetricsRow) : List ProductPerfRow :=
  part.map (rankRow part)

/-- The `kpi_product_performance` table: `product_metrics` rows with
ranks, percentile and tier computed per platform partition. -/
def kpi_product_performance (today : ℤ) (orders : List UnifiedOrder)
    (items : List StagedOrderItem) : List ProductPerfRow :=
  let metrics := product_metrics today orders items
  let platforms := (metrics.map (·.platform)).dedup
  platforms.flatMap (fun p => rankPartition (metrics.filter (fun r => r.platform = p)))

/-! The query facade (`KPIService`, src/api/services/kpi_service.py).
Each operation reads a mart table passed in as a list of rows; the
rebuild date stands in for `date.today()`. -/

/-- `KPIService.get_platform_overview`: all rows ordered by
`total_revenue_usd` descending. -/
def get_platform_overview (table : List PlatformOverviewRow) :
    List PlatformOverviewRow :=
  table.mergeSort (fun a b => decide (b.total_revenue_usd ≤ a.total_revenue_usd))

/-- `KPIService.get_daily_snapshots`: defaults the end date to today and
the start date to `end_date - timedelta(days=limit)`, then returns the
rows with `order_date BETWEEN start AND end` ordered by date descending,
capped at `limit`. -/
def get_daily_snapshots (table : List DailySnapshotRow)
    (start_date end_date : Option ℤ) (limit : ℕ) (today : ℤ) :
    List DailySnapshotRow :=
  let e := end_date.getD today
  let s := start_date.getD (e - (limit : ℤ))
  ((table.filter (fun r => s ≤ r.order_date ∧ r.order_date ≤ e)).mergeSort
    (fun a b => decide (b.order_date ≤ a.order_date))).take limit

/-- `KPIService.get_revenue_by_platform`: date window defaulting to the
last 30 days, optional platform filter, ordered by date descending then
platform. -/
def get_revenue_by_platform (table : List RevenueSummaryRow)
    (platform : Option String) (start_date end_date : Option ℤ) (today : ℤ) :
    List RevenueSummaryRow :=
  let e := end_date.getD today
  let s := start_date.getD (e - 30)
  let rows := table.filter (fun r =>
    decide (s ≤ r.order_date ∧ r.order_date ≤ e) &&
    (match platform with | none => true | some p => decide (r.platform = p)))
  rows.mergeSort (fun a b => decide (b.order_date < a.order_date ∨
    (a.order_date = b.order_date ∧ a.platform ≤ b.platform)))

/-- `KPIService.get_product_performance`: optional platform and tier
filters, ordered by `total_revenue` descending, capped at `limit`. -/
def get_product_performance (table : List ProductPerfRow)
    (platform tier : Option String) (limit : ℕ) : List ProductPerfRow :=
  let rows := table.filter (fun r =>
    (match platform with | none => true | some p => decide (r.platform = p)) &&
    (match tier with | none => true | some t => decide (r.performance_tier = t)))
  (rows.mergeSort (fun a b => decide (b.total_revenue ≤ a.total_revenue))).take limit

/-- The record returned by `KPIService.get_dashboard_summary`. -/
structure DashboardSummary where
  total_revenue_usd : ℚ
  total_orders : ℕ
  avg_order_value_usd : ℚ
  revenue_growth_pct : ℚ
  orders_growth_pct : ℚ
  total_customers : ℕ
  platforms : List PlatformOverviewRow
  recent_days : List DailySnapshotRow
deriving DecidableEq

/-- `KPIService.get_dashboard_summary`: sums the platform-overview rows,
recomputes the month-over-month growth percentages over the summed
figures with the same zero-as-default guard, and hard-codes
`total_customers` to `0` (the comment in the source reads
`Would need customer data`). -/
def get_dashboard_summary (overviewTable : List PlatformOverviewRow)
    (snapshotTable : List DailySnapshotRow) (today : ℤ) : DashboardSummary :=
  let platforms := get_platform_overview overviewTable
  let recent_days := get_daily_snapshots snapshotTable none none 7 today
  let total_revenue := (platforms.map (·.total_revenue_usd)).sum
  let total_orders := (platforms.map (·.total_orders)).sum
  let revenue_this_month := (platforms.map (·.revenue_this_month_usd)).sum
  let revenue_last_month := (platforms.map (·.revenue_last_month_usd)).sum
  let orders_this_month := (platforms.map (·.orders_this_month)).sum
  let orders_last_month := (platforms.map (·.orders_last_month)).sum
  let revenue_growth :=
    if 0 < revenue_last_month then
      pyRound2 ((revenue_this_month - revenue_last_month) / revenue_last_month * 100)
    else 0
  let orders_growth :=
    if 0 < orders_last_month then
      pyRound2 (((orders_this_month : ℚ) - (orders_last_month : ℚ)) /
        (orders_last_month : ℚ) * 100)
    else 0
  let avg_order_value :=
    if 0 < total_orders then total_revenue / (total_orders : ℚ) else 0
  { total_revenue_usd := pyRound2 total_revenue
    total_orders := total_orders
    avg_order_value_usd := pyRound2 avg_order_value
    revenue_growth_pct := revenue_growth
    orders_growth_pct := orders_growth
    total_customers := 0
    platforms := platforms
    recent_days := recent_days }

/-! The rebuild transaction (`run_dbt_models`).  The endpoint issues a
sequence of DDL statements on one session, with explicit commits after
the staging views, after the intermediate views, and after all four mart
tables; on any error it rolls the open transaction back and raises an
HTTP 500.  The model executes the statement sequence over a pair
(committed state, working state); a commit publishes the working state
and a failure abandons it. -/

/-- The four mart tables of the `public_marts` schema; `none` models an
absent (dropped) table. -/
structure MartTables where
  platform_overview : Option (List PlatformOverviewRow)
  daily_snapshot : Option (List DailySnapshotRow)
  revenue_summary : Option (List RevenueSummaryRow)
  product_performance : Option (List ProductPerfRow)
deriving DecidableEq

/-- A database state: the created view names and the mart tables. -/
structure DBState where
  views : List String
  marts : MartTables
deriving DecidableEq

/-- One DDL statement issued by `run_dbt_models`. -/
inductive DbtStep where
  | createView (name : String)
  | dropPlatformOverview
  | createPlatformOverview
  | dropDailySnapshot
  | createDailySnapshot
  | dropRevenueSummary
  | createRevenueSummary
  | dropProductPerformance
  | createProductPerformance
  | commitTx
deriving DecidableEq

/-- The statement sequence of `run_dbt_models`, in source order. -/
def dbtSteps : List DbtStep := [
  .createView "stg_shopify__orders", .createView "stg_shopify__order_items",
  .createView "stg_amazon__orders", .createView "stg_amazon__order_items",
  .createView "stg_lazada__orders", .createView "stg_lazada__order_items",
  .createView "stg_shopee__orders", .createView "stg_shopee__order_items",
  .commitTx,
  .createView "int_unified_orders", .createView "int_unified_order_items",
  .commitTx,
  .dropPlatformOverview, .createPlatformOverview,
  .dropDailySnapshot, .createDailySnapshot,
  .dropRevenueSummary, .createRevenueSummary,
  .dropProductPerformance, .createProductPerformance,
  .commitTx]

/-- Replace the platform-overview mart of a database state. -/
def DBState.setPO (s : DBState) (v : Option (List PlatformOverviewRow)) : DBState :=
  { s with marts := { s.marts with platform_overview := v } }

/-- Replace the daily-snapshot mart of a database state. -/
def DBState.setDS (s : DBState) (v : Option (List DailySnapshotRow)) : DBState :=
  { s with marts := { s.marts with daily_snapshot := v } }

/-- Replace the revenue-summary mart of a database state. -/
def DBState.setRS (s : DBState) (v : Option (List RevenueSummaryRow)) : DBState :=
  { s with marts := { s.marts with revenue_summary := v } }

/-- Replace the product-performance mart of a database state. -/
def DBState.setPP (s : DBState) (v : Option (List ProductPerfRow)) : DBState :=
  { s with marts := { s.marts with product_performance := v } }

/-- Effect of one statement on the `(committed, working)` state pair.
`CREATE TABLE ... AS` statements compute the mart content from the
intermediate views over the landed raw data. -/
def applyStep (raw : RawData) (today : ℤ) (st : DBState × DBState) :
    DbtStep → DBState × DBState
  | .createView n =>
    (st.1, { st.2 with views := st.2.views.insert n })
  | .dropPlatformOverview => (st.1, st.2.setPO none)
  | .createPlatformOverview =>
    (st.1, st.2.setPO (some (kpi_platform_overview today (int_unified_orders raw))))
  | .dropDailySnapshot => (st.1, st.2.setDS none)
  | .createDailySnapshot =>
    (st.1, st.2.setDS (some (kpi_daily_snapshot (int_unified_orders raw))))
  | .dropRevenueSummary => (st.1, st.2.setRS none)
  | .createRevenueSummary =>
    (st.1, st.2.setRS (some (kpi_revenue_summary (int_unified_orders raw))))
  | .dropProductPerformance => (st.1, st.2.setPP none)
  | .createProductPerformance =>
    (st.1, st.2.setPP (some (kpi_product_performance today (int_unified_orders raw)
      (int_unified_order_items raw))))
  | .commitTx => (st.2, st.2)

/-- Run the statements in order; statement number `failAt` (if any)
raises, which aborts execution with the committed state of that moment.
-/
def execSteps (raw : RawData) (today : ℤ) :
    List DbtStep → ℕ → Option ℕ → DBState × DBState →
    Except (String × DBState) DBState
  | [], _, _, st => .ok st.1
  | s :: rest, i, failAt, st =>
    if failAt = some i then .error ("Model creation failed", st.1)
    else execSteps raw today rest (i + 1) failAt (applyStep raw today st s)

/-- Outcome of one `POST /run-models` call: the HTTP-level response and
the database state a subsequent reader observes. -/
structure RunResult where
  response : Except String String
  db : DBState

/-- `run_dbt_models`: execute the statement sequence; on success return
the success payload, on any error roll back (discarding the working
state) and surface an HTTP 500 to the caller. -/
def run_dbt_models (init : DBState) (raw : RawData) (today : ℤ)
    (failAt : Option ℕ) : RunResult :=
  match execSteps raw today dbtSteps 0 failAt (init, init) with
  | .ok db => { response := .ok "All models created successfully", db := db }
  | .error (e, db) => { response := .error e, db := db }

/-! Specification-side definitions, for comparison with the code. -/

/-- The revenue percentile as the specification words it: the fraction
of same-platform products whose `total_revenue` is strictly lower,
divided by the total number of same-platform products. -/
def specRevenuePercentile (rows : List ProductPerfRow) (r : ProductPerfRow) : ℚ :=
  let peers := rows.filter (fun x => x.platform = r.platform)
  ((peers.countP (fun x => x.total_revenue < r.total_revenue) : ℕ) : ℚ) /
    ((peers.length : ℕ) : ℚ)

/-- The window "the last `n` calendar days ending today" as the
specification words it: the `n` consecutive calendar dates whose latest
is `today`. -/
def lastCalendarDays (today : ℤ) (n : ℕ) (d : ℤ) : Prop :=
  today - n < d ∧ d ≤ today

instance (today : ℤ) (n : ℕ) (d : ℤ) : Decidable (lastCalendarDays today n d) :=
  inferInstanceAs (Decidable (_ ∧ _))

/-! Default rows (used as `List.getD` fallbacks in concrete statements)
and concrete example data for the witnesses and counterexamples. -/

/-- Default platform-overview row: the group row of an empty platform. -/
def dPO : PlatformOverviewRow := overviewRow 0 [] ""

/-- Default daily-snapshot row: the row of an empty date group. -/
def dDS : DailySnapshotRow := snapshotAt [] 0 (dailyBaseRow [] 0)

/-- Default product-performance row: the row of an empty product group. -/
def dPP : ProductPerfRow := rankRow [] (productMetricsRow 0 [] ("", "", "", none))

/-- Example raw storefront order: USD, paid, fulfilled, created at the
epoch. -/
def exShopifyOrderA : RawShopifyOrder where
  id := 1
  created_at := 0
  updated_at := 0
  processed_at := none
  cancelled_at := none
  closed_at := none
  customer_id := some 10
  email := "a@example.com"
  total_price := 100
  subtotal_price := 90
  total_tax := 5
  total_discounts := 0
  currency := "USD"
  financial_status := "paid"
  fulfillment_status := some "fulfilled"
  cancel_reason := none
  line_items_count := some 1
  source_name := "web"
  tags := none
  note := none

/-- Example raw storefront order that is fulfilled but not paid
(refunded): the payment flag is false while the fulfillment flag is
true. -/
def exShopifyOrderB : RawShopifyOrder :=
  { exShopifyOrderA with
    id := 2
    email := "b@example.com"
    financial_status := "refunded" }

/-- Example raw marketplace order with an epoch clock and a cancelled
lifecycle status. -/
def exShopeeOrderC : RawShopeeOrder where
  order_sn := "SN1"
  create_time := 86400
  update_time := 172800
  pay_time := 86400
  buyer_user_id := 7
  buyer_username := "buyer7"
  total_amount := 500
  estimated_shipping_fee := some 50
  voucher_absorbed := none
  currency := "PHP"
  order_status := "CANCELLED"
  cancel_reason := some "out of stock"
  message_to_seller := none

/-- Example raw order in a currency absent from the multiplier table. -/
def exLazadaOrderD : RawLazadaOrder where
  order_id := 4
  created_at := 0
  updated_at := 0
  customer_id := 40
  buyer_email := "d@example.com"
  price := 1000
  voucher := none
  payment_method := "COD"
  statuses := "shipped"
  items_count := 2
  remarks := none

/-- Example raw line item for product 100 on order 1. -/
def exShopifyItemP : RawShopifyItem where
  id := 11
  order_id := 1
  product_id := 100
  variant_id := none
  title := "Product P"
  variant_title := none
  sku := some "SKU-P"
  quantity := 1
  price := 10
  total_discount := none
  fulfillment_status := some "fulfilled"
  fulfillable_quantity := 0
  gift_card := false
  taxable := true
  requires_shipping := true

/-- Example raw line item for product 200 on order 1, with the higher
line total. -/
def exShopifyItemQ : RawShopifyItem :=
  { exShopifyItemP with
    id := 12
    product_id := 200
    title := "Product Q"
    sku := some "SKU-Q"
    price := 20 }

/-- Raw data with one paid and one refunded-but-fulfilled storefront
order: input of the fulfillment-rate counterexample. -/
def exRawB : RawData := ⟨[exShopifyOrderA, exShopifyOrderB], [], [], [], [], [], [], []⟩

/-- Raw data covering a storefront order, the two example line items, a
cancelled marketplace order and an unknown-currency order. -/
def exRawAll : RawData :=
  ⟨[exShopifyOrderA], [exShopifyItemP, exShopifyItemQ], [], [],
   [exLazadaOrderD], [], [exShopeeOrderC], []⟩

/-- The unified orders of `exRawAll`. -/
def exOrders : List UnifiedOrder := int_unified_orders exRawAll

/-- The unified order items of `exRawAll`. -/
def exItems : List StagedOrderItem := int_unified_order_items exRawAll

/-- A daily-snapshot row dated 30 days before day 100. -/
def exSnapRow : DailySnapshotRow := { dDS with order_date := 70 }

/-- An initial database state holding a non-empty prior generation of
every mart. -/
def exInitDB : DBState where
  views := []
  marts :=
    { platform_overview := some [dPO]
      daily_snapshot := some [dDS]
      revenue_summary := some []
      product_performance := some [dPP] }

/-! Theorems. -/

/-- The static multiplier is the identity on USD amounts. -/
theorem toUsd_usd (a : ℚ) : toUsd "USD" a = a := by
  simp [toUsd]

/-- The static multiplier falls back to the native amount on a currency
code outside the table. -/
theorem toUsd_unknown (c : String) (a : ℚ)
    (h : c ∉ (["PHP", "MYR", "SGD", "IDR", "USD"] : List String)) :
    toUsd c a = a := by
  simp only [List.mem_cons, List.not_mem_nil, or_false, not_or] at h
  obtain ⟨h1, h2, h3, h4, h5⟩ := h
  simp [toUsd, h1, h2, h3, h4, h5]

/-- C10: for every state of the rollup tables (and any current date), the
dashboard summary returned by `get_dashboard_summary` reports
`total_customers = 0`: the field is a hard-coded constant. -/
theorem dashboard_total_customers_zero (overviewTable : List PlatformOverviewRow)
    (snapshotTable : List DailySnapshotRow) (today : ℤ) :
    (get_dashboard_summary overviewTable snapshotTable today).total_customers = 0 :=
  rfl

/-- C6: every unified order produced by the unification layer, from any
landed raw data and any source platform, has `is_cancelled = true` exactly
when its `cancelled_at` timestamp is non-null. -/
theorem is_cancelled_iff_cancelled_at (raw : RawData) (o : UnifiedOrder)
    (ho : o ∈ int_unified_orders raw) :
    o.is_cancelled = true ↔ o.order_cancelled_at ≠ none := by
  rcases List.mem_map.mp ho with ⟨s, _, rfl⟩
  show s.order_cancelled_at.isSome = true ↔ s.order_cancelled_at ≠ none
  exact Option.isSome_iff_ne_none

/-- C6 witness: the cancelled marketplace order of the example raw data. -/
theorem is_cancelled_iff_cancelled_at_witness :
    (enrichOrder (stg_shopee_order exShopeeOrderC) ∈ int_unified_orders exRawAll) ∧
    ((enrichOrder (stg_shopee_order exShopeeOrderC)).is_cancelled = true ↔
      (enrichOrder (stg_shopee_order exShopeeOrderC)).order_cancelled_at ≠ none) :=
  ⟨by simp [int_unified_orders, exRawAll],
   is_cancelled_iff_cancelled_at exRawAll _ (by simp [int_unified_orders, exRawAll])⟩

/-- C7: the USD conversion of the unification layer is the identity on
USD-denominated orders, and on any currency code outside the static
multiplier table it treats the native amount as already USD. -/
theorem usd_conversion_identity_and_fallback (raw : RawData) (o : UnifiedOrder)
    (ho : o ∈ int_unified_orders raw) :
    (o.currency_code = "USD" → o.total_amount_usd = o.total_amount) ∧
    (o.currency_code ∉ (["PHP", "MYR", "SGD", "IDR", "USD"] : List String) →
      o.total_amount_usd = o.total_amount) := by
  rcases List.mem_map.mp ho with ⟨s, _, rfl⟩
  have hcc : (enrichOrder s).currency_code = s.currency_code := rfl
  have hta : (enrichOrder s).total_amount = s.total_amount := rfl
  have htu : (enrichOrder s).total_amount_usd = toUsd s.currency_code s.total_amount := rfl
  rw [hcc, hta, htu]
  exact ⟨fun h => h ▸ toUsd_usd s.total_amount, fun h => toUsd_unknown _ _ h⟩

/-- C7 witness: the USD storefront order of the example raw data. -/
theorem usd_conversion_identity_and_fallback_witness :
    (enrichOrder (stg_shopify_order exShopifyOrderA) ∈ int_unified_orders exRawAll) ∧
    (((enrichOrder (stg_shopify_order exShopifyOrderA)).currency_code = "USD" →
      (enrichOrder (stg_shopify_order exShopifyOrderA)).total_amount_usd =
        (enrichOrder (stg_shopify_order exShopifyOrderA)).total_amount) ∧
     ((enrichOrder (stg_shopify_order exShopifyOrderA)).currency_code ∉
        (["PHP", "MYR", "SGD", "IDR", "USD"] : List String) →
      (enrichOrder (stg_shopify_order exShopifyOrderA)).total_amount_usd =
        (enrichOrder (stg_shopify_order exShopifyOrderA)).total_amount)) :=
  ⟨by simp [int_unified_orders, exRawAll],
   usd_conversion_identity_and_fallback exRawAll _
     (by simp [int_unified_orders, exRawAll])⟩

set_option maxHeartbeats 2000000 in
/-- C2: if the rebuild raises at any of its statements, every one of the
four mart tables of the committed database keeps its pre-rebuild
contents, and the call reports an error to the caller. -/
theorem rebuild_failure_atomic (init : DBState) (raw : RawData) (today : ℤ)
    (i : ℕ) (h : i < 21) :
    (run_dbt_models init raw today (some i)).response =
      Except.error "Model creation failed" ∧
    (run_dbt_models init raw today (some i)).db.marts = init.marts := by
  interval_cases i <;>
    simp [run_dbt_models, execSteps, dbtSteps, applyStep, DBState.setPO,
      DBState.setDS, DBState.setRS, DBState.setPP]

/-- C2 witness: a failure while creating the daily-snapshot mart leaves
the example prior generation intact and surfaces the error. -/
theorem rebuild_failure_atomic_witness :
    (15 < 21) ∧
    ((run_dbt_models exInitDB exRawAll 0 (some 15)).response =
       Except.error "Model creation failed" ∧
     (run_dbt_models exInitDB exRawAll 0 (some 15)).db.marts = exInitDB.marts) :=
  ⟨by decide, rebuild_failure_atomic exInitDB exRawAll 0 15 (by decide)⟩

/-- Rounding preserves nonnegativity. -/
theorem sqlRound2_nonneg {q : ℚ} (h : 0 ≤ q) : 0 ≤ sqlRound2 q := by
  unfold sqlRound2
  rw [if_pos h]
  have h0 : (0 : ℤ) ≤ ⌊q * 100 + 1/2⌋ := Int.floor_nonneg.mpr (by positivity)
  have h1 : (0 : ℚ) ≤ (⌊q * 100 + 1/2⌋ : ℚ) := by exact_mod_cast h0
  linarith

/-- Rounding preserves the upper bound 100. -/
theorem sqlRound2_le_hundred {q : ℚ} (h0 : 0 ≤ q) (h : q ≤ 100) :
    sqlRound2 q ≤ 100 := by
  unfold sqlRound2
  rw [if_pos h0]
  have h1 : ⌊q * 100 + 1/2⌋ ≤ ⌊(10000 : ℚ) + 1/2⌋ :=
    Int.floor_le_floor (by linarith)
  have h2 : ⌊(10000 : ℚ) + 1/2⌋ = 10000 := by
    rw [Int.floor_eq_iff]
    constructor <;> norm_num
  have h3 : ((⌊q * 100 + 1/2⌋ : ℤ) : ℚ) ≤ 10000 := by
    rw [h2] at h1
    exact_mod_cast h1
  linarith

/-- C1: in every Platform Overview row computed from any unified orders
and rebuild date, `revenue_mom_growth_pct` equals
`round(100 * (this - last) / last, 2)` when `revenue_last_month_usd` is
positive and is exactly `0` when it is `0`; the same zero-safe rule
governs `orders_mom_growth_pct`, and `get_dashboard_summary` recomputes
both growth percentages over the summed per-platform figures under the
same rule. -/
theorem growth_mom_zero_division_policy (today : ℤ) (orders : List UnifiedOrder)
    (overviewTable : List PlatformOverviewRow) (snapshotTable : List DailySnapshotRow)
    (row : PlatformOverviewRow) (hrow : row ∈ kpi_platform_overview today orders) :
    ((0 < row.revenue_last_month_usd →
        row.revenue_mom_growth_pct = sqlRound2 (100 *
          (row.revenue_this_month_usd - row.revenue_last_month_usd) /
          row.revenue_last_month_usd)) ∧
     (row.revenue_last_month_usd = 0 → row.revenue_mom_growth_pct = 0) ∧
     (0 < row.orders_last_month →
        row.orders_mom_growth_pct = sqlRound2 (100 *
          ((row.orders_this_month : ℚ) - (row.orders_last_month : ℚ)) /
          (row.orders_last_month : ℚ))) ∧
     (row.orders_last_month = 0 → row.orders_mom_growth_pct = 0)) ∧
    (((0 : ℚ) <
        ((get_dashboard_summary overviewTable snapshotTable today).platforms.map
          (·.revenue_last_month_usd)).sum →
        (get_dashboard_summary overviewTable snapshotTable today).revenue_growth_pct =
          pyRound2 (100 *
            (((get_dashboard_summary overviewTable snapshotTable today).platforms.map
                (·.revenue_this_month_usd)).sum -
             ((get_dashboard_summary overviewTable snapshotTable today).platforms.map
                (·.revenue_last_month_usd)).sum) /
            ((get_dashboard_summary overviewTable snapshotTable today).platforms.map
              (·.revenue_last_month_usd)).sum)) ∧
     (((get_dashboard_summary overviewTable snapshotTable today).platforms.map
          (·.revenue_last_month_usd)).sum = 0 →
        (get_dashboard_summary overviewTable snapshotTable today).revenue_growth_pct = 0) ∧
     (0 < ((get_dashboard_summary overviewTable snapshotTable today).platforms.map
          (·.orders_last_month)).sum →
        (get_dashboard_summary overviewTable snapshotTable today).orders_growth_pct =
          pyRound2 (100 *
            (((((get_dashboard_summary overviewTable snapshotTable today).platforms.map
                (·.orders_this_month)).sum : ℕ) : ℚ) -
             ((((get_dashboard_summary overviewTable snapshotTable today).platforms.map
                (·.orders_last_month)).sum : ℕ) : ℚ)) /
            ((((get_dashboard_summary overviewTable snapshotTable today).platforms.map
              (·.orders_last_month)).sum : ℕ) : ℚ))) ∧
     (((get_dashboard_summary overviewTable snapshotTable today).platforms.map
          (·.orders_last_month)).sum = 0 →
        (get_dashboard_summary overviewTable snapshotTable today).orders_growth_pct = 0)) := by
  obtain ⟨p, hp, rfl⟩ := List.mem_map.mp hrow
  constructor
  · have krev : (overviewRow today orders p).revenue_mom_growth_pct =
        if 0 < (overviewRow today orders p).revenue_last_month_usd then
          sqlRound2 (100 *
            ((overviewRow today orders p).revenue_this_month_usd -
             (overviewRow today orders p).revenue_last_month_usd) /
            (overviewRow today orders p).revenue_last_month_usd)
        else 0 := rfl
    have kord : (overviewRow today orders p).orders_mom_growth_pct =
        if 0 < (overviewRow today orders p).orders_last_month then
          sqlRound2 (100 *
            (((overviewRow today orders p).orders_this_month : ℚ) -
             ((overviewRow today orders p).orders_last_month : ℚ)) /
            ((overviewRow today orders p).orders_last_month : ℚ))
        else 0 := rfl
    refine ⟨fun h => ?_, fun h => ?_, fun h => ?_, fun h => ?_⟩
    · rw [krev, if_pos h]
    · rw [krev, h]
      simp
    · rw [kord, if_pos h]
    · rw [kord, h]
      simp
  · have krev : (get_dashboard_summary overviewTable snapshotTable today).revenue_growth_pct =
        if (0 : ℚ) <
            ((get_dashboard_summary overviewTable snapshotTable today).platforms.map
              (·.revenue_last_month_usd)).sum then
          pyRound2
            ((((get_dashboard_summary overviewTable snapshotTable today).platforms.map
                (·.revenue_this_month_usd)).sum -
              ((get_dashboard_summary overviewTable snapshotTable today).platforms.map
                (·.revenue_last_month_usd)).sum) /
             ((get_dashboard_summary overviewTable snapshotTable today).platforms.map
               (·.revenue_last_month_usd)).sum * 100)
        else 0 := rfl
    have kord : (get_dashboard_summary overviewTable snapshotTable today).orders_growth_pct =
        if 0 <
            ((get_dashboard_summary overviewTable snapshotTable today).platforms.map
              (·.orders_last_month)).sum then
          pyRound2
            ((((((get_dashboard_summary overviewTable snapshotTable today).platforms.map
                (·.orders_this_month)).sum : ℕ) : ℚ) -
              ((((get_dashboard_summary overviewTable snapshotTable today).platforms.map
                (·.orders_last_month)).sum : ℕ) : ℚ)) /
             ((((get_dashboard_summary overviewTable snapshotTable today).platforms.map
               (·.orders_last_month)).sum : ℕ) : ℚ) * 100)
        else 0 := rfl
    refine ⟨fun h => ?_, fun h => ?_, fun h => ?_, fun h => ?_⟩
    · rw [krev, if_pos h]
      congr 1
      ring
    · rw [krev, h]
      simp
    · rw [kord, if_pos h]
      congr 1
      ring
    · rw [kord, h]
      simp

/-- C1 witness: the storefront platform row of the example data, with
empty facade tables. -/
theorem growth_mom_zero_division_policy_witness :
    (overviewRow 0 exOrders "shopify" ∈ kpi_platform_overview 0 exOrders) ∧
    (((0 < (overviewRow 0 exOrders "shopify").revenue_last_month_usd →
        (overviewRow 0 exOrders "shopify").revenue_mom_growth_pct = sqlRound2 (100 *
          ((overviewRow 0 exOrders "shopify").revenue_this_month_usd -
           (overviewRow 0 exOrders "shopify").revenue_last_month_usd) /
          (overviewRow 0 exOrders "shopify").revenue_last_month_usd)) ∧
      ((overviewRow 0 exOrders "shopify").revenue_last_month_usd = 0 →
        (overviewRow 0 exOrders "shopify").revenue_mom_growth_pct = 0) ∧
      (0 < (overviewRow 0 exOrders "shopify").orders_last_month →
        (overviewRow 0 exOrders "shopify").orders_mom_growth_pct = sqlRound2 (100 *
          (((overviewRow 0 exOrders "shopify").orders_this_month : ℚ) -
           ((overviewRow 0 exOrders "shopify").orders_last_month : ℚ)) /
          ((overviewRow 0 exOrders "shopify").orders_last_month : ℚ))) ∧
      ((overviewRow 0 exOrders "shopify").orders_last_month = 0 →
        (overviewRow 0 exOrders "shopify").orders_mom_growth_pct = 0)) ∧
     (((0 : ℚ) <
         ((get_dashboard_summary [] [] 0).platforms.map (·.revenue_last_month_usd)).sum →
         (get_dashboard_summary [] [] 0).revenue_growth_pct =
           pyRound2 (100 *
             (((get_dashboard_summary [] [] 0).platforms.map
                 (·.revenue_this_month_usd)).sum -
              ((get_dashboard_summary [] [] 0).platforms.map
                 (·.revenue_last_month_usd)).sum) /
             ((get_dashboard_summary [] [] 0).platforms.map
               (·.revenue_last_month_usd)).sum)) ∧
      (((get_dashboard_summary [] [] 0).platforms.map (·.revenue_last_month_usd)).sum = 0 →
         (get_dashboard_summary [] [] 0).revenue_growth_pct = 0) ∧
      (0 < ((get_dashboard_summary [] [] 0).platforms.map (·.orders_last_month)).sum →
         (get_dashboard_summary [] [] 0).orders_growth_pct =
           pyRound2 (100 *
             (((((get_dashboard_summary [] [] 0).platforms.map
                 (·.orders_this_month)).sum : ℕ) : ℚ) -
              ((((get_dashboard_summary [] [] 0).platforms.map
                 (·.orders_last_month)).sum : ℕ) : ℚ)) /
             ((((get_dashboard_summary [] [] 0).platforms.map
               (·.orders_last_month)).sum : ℕ) : ℚ))) ∧
      (((get_dashboard_summary [] [] 0).platforms.map (·.orders_last_month)).sum = 0 →
         (get_dashboard_summary [] [] 0).orders_growth_pct = 0))) :=
  ⟨by with_unfolding_all decide,
   growth_mom_zero_division_policy 0 exOrders [] []
     (overviewRow 0 exOrders "shopify") (by with_unfolding_all decide)⟩

/-- C5 counterexample: two storefront orders, one paid and one refunded
but fulfilled, drive `fulfillment_rate` to `200`, outside `[0, 100]`:
its denominator is the count of paid orders, not of all orders. -/
theorem fulfillment_rate_exceeds_100 :
    ((kpi_platform_overview 0 (int_unified_orders exRawB)).getD 0 dPO).fulfillment_rate
      = some 200 ∧ ¬ ((200 : ℚ) ≤ 100) := by
  constructor
  · with_unfolding_all decide
  · norm_num

/-- C5 (amended): in every Platform Overview row, `payment_rate` and
`cancellation_rate` are non-null and lie in `[0, 100]`; `fulfillment_rate`
(fulfilled over paid) is nonnegative whenever it is non-null, but may
exceed 100. -/
theorem rate_metrics_bounds (today : ℤ) (orders : List UnifiedOrder)
    (row : PlatformOverviewRow) (hrow : row ∈ kpi_platform_overview today orders) :
    (∃ x, row.payment_rate = some x ∧ 0 ≤ x ∧ x ≤ 100) ∧
    (∃ x, row.cancellation_rate = some x ∧ 0 ≤ x ∧ x ≤ 100) ∧
    (∀ x, row.fulfillment_rate = some x → 0 ≤ x) := by
  obtain ⟨p, hp, rfl⟩ := List.mem_map.mp hrow
  have hsub : (orders.filter (fun o => decide (o.platform = p))).length ≠ 0 := by
    rw [List.mem_dedup] at hp
    obtain ⟨o, ho, hop⟩ := List.mem_map.mp hp
    have hmem : o ∈ orders.filter (fun o => decide (o.platform = p)) :=
      List.mem_filter.mpr ⟨ho, by simp [hop]⟩
    intro hlen
    rw [List.length_eq_zero] at hlen
    rw [hlen] at hmem
    exact List.not_mem_nil o hmem
  have hpos : (0 : ℚ) < ((orders.filter (fun o => decide (o.platform = p))).length : ℚ) := by
    exact_mod_cast Nat.pos_of_ne_zero hsub
  refine ⟨?_, ?_, ?_⟩
  · have kpay : (overviewRow today orders p).payment_rate =
        if (orders.filter (fun o => decide (o.platform = p))).length = 0 then none
        else some (sqlRound2 (100 *
          (((orders.filter (fun o => decide (o.platform = p))).filter
            (fun o => o.is_paid)).length : ℚ) /
          (((orders.filter (fun o => decide (o.platform = p))).length : ℚ)))) := rfl
    rw [kpay, if_neg hsub]
    refine ⟨_, rfl, ?_, ?_⟩
    · exact sqlRound2_nonneg (by positivity)
    · refine sqlRound2_le_hundred (by positivity) ?_
      rw [div_le_iff₀ hpos]
      have hle : (((orders.filter (fun o => decide (o.platform = p))).filter
          (fun o => o.is_paid)).length : ℚ) ≤
          (((orders.filter (fun o => decide (o.platform = p))).length : ℚ)) := by
        exact_mod_cast List.length_filter_le _ _
      linarith
  · have kcan : (overviewRow today orders p).cancellation_rate =
        if (orders.filter (fun o => decide (o.platform = p))).length = 0 then none
        else some (sqlRound2 (100 *
          (((orders.filter (fun o => decide (o.platform = p))).filter
            (fun o => o.is_cancelled)).length : ℚ) /
          (((orders.filter (fun o => decide (o.platform = p))).length : ℚ)))) := rfl
    rw [kcan, if_neg hsub]
    refine ⟨_, rfl, ?_, ?_⟩
    · exact sqlRound2_nonneg (by positivity)
    · refine sqlRound2_le_hundred (by positivity) ?_
      rw [div_le_iff₀ hpos]
      have hle : (((orders.filter (fun o => decide (o.platform = p))).filter
          (fun o => o.is_cancelled)).length : ℚ) ≤
          (((orders.filter (fun o => decide (o.platform = p))).length : ℚ)) := by
        exact_mod_cast List.length_filter_le _ _
      linarith
  · intro x hx
    have kful : (overviewRow today orders p).fulfillment_rate =
        if ((orders.filter (fun o => decide (o.platform = p))).filter
            (fun o => o.is_paid)).length = 0 then none
        else some (sqlRound2 (100 *
          (((orders.filter (fun o => decide (o.platform = p))).filter
            (fun o => o.is_fulfilled)).length : ℚ) /
          ((((orders.filter (fun o => decide (o.platform = p))).filter
            (fun o => o.is_paid)).length : ℚ)))) := rfl
    rw [kful] at hx
    by_cases hpc : ((orders.filter (fun o => decide (o.platform = p))).filter
        (fun o => o.is_paid)).length = 0
    · rw [if_pos hpc] at hx
      exact absurd hx (by simp)
    · rw [if_neg hpc] at hx
      have hx2 : sqlRound2 _ = x := Option.some_injective _ hx
      exact hx2 ▸ sqlRound2_nonneg (by positivity)

/-- C5 witness: the storefront platform row of the two-order example. -/
theorem rate_metrics_bounds_witness :
    (overviewRow 0 (int_unified_orders exRawB) "shopify" ∈
      kpi_platform_overview 0 (int_unified_orders exRawB)) ∧
    ((∃ x, (overviewRow 0 (int_unified_orders exRawB) "shopify").payment_rate = some x ∧
        0 ≤ x ∧ x ≤ 100) ∧
     (∃ x, (overviewRow 0 (int_unified_orders exRawB) "shopify").cancellation_rate = some x ∧
        0 ≤ x ∧ x ≤ 100) ∧
     (∀ x, (overviewRow 0 (int_unified_orders exRawB) "shopify").fulfillment_rate = some x →
        0 ≤ x)) :=
  ⟨by with_unfolding_all decide,
   rate_metrics_bounds 0 (int_unified_orders exRawB) _ (by with_unfolding_all decide)⟩

/-- C4: every Product Performance row is tiered by the ordered rule
rank ≤ 10, then percentile ≥ 0.8, then percentile ≥ 0.5, with inclusive
boundaries: rank exactly 10 gives Top 10 and rank 11 with percentile
exactly 0.8 gives Top Performer. -/
theorem performance_tier_assignment (today : ℤ) (orders : List UnifiedOrder)
    (items : List StagedOrderItem) (row : ProductPerfRow)
    (hrow : row ∈ kpi_product_performance today orders items) :
    row.performance_tier =
      (if row.revenue_rank ≤ 10 then "Top 10"
       else if (0.8 : ℚ) ≤ row.revenue_percentile then "Top Performer"
       else if (0.5 : ℚ) ≤ row.revenue_percentile then "Average"
       else "Underperformer") ∧
    (row.revenue_rank = 10 → row.performance_tier = "Top 10") ∧
    (row.revenue_rank = 11 → row.revenue_percentile = 0.8 →
      row.performance_tier = "Top Performer") := by
  obtain ⟨p, _, hin⟩ := List.mem_flatMap.mp hrow
  obtain ⟨r, _, rfl⟩ := List.mem_map.mp hin
  have key : ∀ part : List ProductMetricsRow,
      (rankRow part r).performance_tier =
        performanceTier (rankRow part r).revenue_rank (rankRow part r).revenue_percentile :=
    fun _ => rfl
  refine ⟨key _, fun h => ?_, fun h1 h2 => ?_⟩
  · rw [key _, h]
    norm_num [performanceTier]
  · rw [key _, h1, h2]
    norm_num [performanceTier]

/-- C4 witness: the first product row of the example data. -/
theorem performance_tier_assignment_witness :
    ((kpi_product_performance 0 exOrders exItems).getD 0 dPP ∈
      kpi_product_performance 0 exOrders exItems) ∧
    (((kpi_product_performance 0 exOrders exItems).getD 0 dPP).performance_tier =
      (if ((kpi_product_performance 0 exOrders exItems).getD 0 dPP).revenue_rank ≤ 10
       then "Top 10"
       else if (0.8 : ℚ) ≤
          ((kpi_product_performance 0 exOrders exItems).getD 0 dPP).revenue_percentile
       then "Top Performer"
       else if (0.5 : ℚ) ≤
          ((kpi_product_performance 0 exOrders exItems).getD 0 dPP).revenue_percentile
       then "Average"
       else "Underperformer") ∧
     (((kpi_product_performance 0 exOrders exItems).getD 0 dPP).revenue_rank = 10 →
       ((kpi_product_performance 0 exOrders exItems).getD 0 dPP).performance_tier =
         "Top 10") ∧
     (((kpi_product_performance 0 exOrders exItems).getD 0 dPP).revenue_rank = 11 →
       ((kpi_product_performance 0 exOrders exItems).getD 0 dPP).revenue_percentile = 0.8 →
       ((kpi_product_performance 0 exOrders exItems).getD 0 dPP).performance_tier =
         "Top Performer")) :=
  ⟨by with_unfolding_all decide,
   performance_tier_assignment 0 exOrders exItems _ (by with_unfolding_all decide)⟩

/-- Ranked rows keep the platform of their metrics row. -/
theorem rankRow_platform (part : List ProductMetricsRow) (r : ProductMetricsRow) :
    (rankRow part r).platform = r.platform := rfl

/-- Ranked rows keep the revenue of their metrics row. -/
theorem rankRow_total_revenue (part : List ProductMetricsRow) (r : ProductMetricsRow) :
    (rankRow part r).total_revenue = r.total_revenue := rfl

/-- Filtering the concatenated per-platform partitions by one platform of
a duplicate-free platform list recovers exactly that platform's
partition. -/
theorem filter_flatMap_partition (metrics : List ProductMetricsRow)
    (qs : List String) (p : String) (hq : qs.Nodup) (hp : p ∈ qs) :
    (qs.flatMap (fun q =>
        rankPartition (metrics.filter (fun r => decide (r.platform = q))))).filter
      (fun x => decide (x.platform = p)) =
    rankPartition (metrics.filter (fun r => decide (r.platform = p))) := by
  induction qs with
  | nil => cases hp
  | cons q qs ih =>
    rw [List.flatMap_cons, List.filter_append]
    rcases List.mem_cons.mp hp with rfl | hpin
    · have h1 : (rankPartition (metrics.filter
          (fun r => decide (r.platform = p)))).filter
            (fun x => decide (x.platform = p)) =
          rankPartition (metrics.filter (fun r => decide (r.platform = p))) := by
        rw [List.filter_eq_self]
        intro a ha
        obtain ⟨r, hr, rfl⟩ := List.mem_map.mp ha
        have : r.platform = p := of_decide_eq_true (List.mem_filter.mp hr).2
        simp [rankRow_platform, this]
      have h2 : (qs.flatMap (fun q =>
          rankPartition (metrics.filter (fun r => decide (r.platform = q))))).filter
            (fun x => decide (x.platform = p)) = [] := by
        rw [List.filter_eq_nil_iff]
        intro a ha
        obtain ⟨q2, hq2, ha2⟩ := List.mem_flatMap.mp ha
        obtain ⟨r, hr, rfl⟩ := List.mem_map.mp ha2
        have hra : r.platform = q2 := of_decide_eq_true (List.mem_filter.mp hr).2
        have hq2p : q2 ≠ p := fun h => (List.nodup_cons.mp hq).1 (h ▸ hq2)
        simp [rankRow_platform, hra, hq2p]
      rw [h1, h2, List.append_nil]
    · have hqp : q ≠ p := fun h => (List.nodup_cons.mp hq).1 (h ▸ hpin)
      have h1 : (rankPartition (metrics.filter
          (fun r => decide (r.platform = q)))).filter
            (fun x => decide (x.platform = p)) = [] := by
        rw [List.filter_eq_nil_iff]
        intro a ha
        obtain ⟨r, hr, rfl⟩ := List.mem_map.mp ha
        have hra : r.platform = q := of_decide_eq_true (List.mem_filter.mp hr).2
        simp [rankRow_platform, hra, hqp]
      rw [h1, List.nil_append, ih (List.nodup_cons.mp hq).2 hpin]

/-- C3 counterexample: with two products of revenues 10 and 20 on one
platform, the higher product's stored `revenue_percentile` is `1`
(PostgreSQL `percent_rank`, strictly-lower count over `N - 1`), while
the fraction of same-platform products with strictly lower revenue is
`1/2`. -/
theorem revenue_percentile_not_spec_fraction :
    ((kpi_product_performance 0 exOrders exItems).getD 1 dPP).revenue_percentile = 1 ∧
    specRevenuePercentile (kpi_product_performance 0 exOrders exItems)
      ((kpi_product_performance 0 exOrders exItems).getD 1 dPP) = 1/2 ∧
    ((1 : ℚ) ≠ 1/2) := by
  refine ⟨?_, ?_, by norm_num⟩
  · with_unfolding_all decide
  · with_unfolding_all decide

/-- C3 (amended): every Product Performance row's `revenue_percentile`
equals the count of same-platform products with strictly lower revenue
divided by the number of same-platform products minus one
(`percent_rank`), and `0` when the platform has a single product. -/
theorem revenue_percentile_is_percent_rank (today : ℤ) (orders : List UnifiedOrder)
    (items : List StagedOrderItem) (row : ProductPerfRow)
    (hrow : row ∈ kpi_product_performance today orders items) :
    row.revenue_percentile =
      if ((kpi_product_performance today orders items).filter
          (fun x => decide (x.platform = row.platform))).length ≤ 1 then 0
      else (((kpi_product_performance today orders items).filter
          (fun x => decide (x.platform = row.platform))).countP
            (fun x => decide (x.total_revenue < row.total_revenue)) : ℚ) /
        (((((kpi_product_performance today orders items).filter
          (fun x => decide (x.platform = row.platform))).length - 1 : ℕ)) : ℚ) := by
  obtain ⟨p, hp, hin⟩ := List.mem_flatMap.mp hrow
  obtain ⟨r, hr, rfl⟩ := List.mem_map.mp hin
  have hplat : (rankRow (product_metrics today orders items |>.filter
      (fun x => decide (x.platform = p))) r).platform = p :=
    of_decide_eq_true (List.mem_filter.mp hr).2
  simp only [hplat, rankRow_total_revenue]
  rw [show kpi_product_performance today orders items =
    ((product_metrics today orders items).map (·.platform)).dedup.flatMap
      (fun q => rankPartition ((product_metrics today orders items).filter
        (fun x => decide (x.platform = q)))) from rfl]
  rw [filter_flatMap_partition _ _ _ (List.nodup_dedup _) hp]
  rw [show rankPartition ((product_metrics today orders items).filter
      (fun x => decide (x.platform = p))) =
    ((product_metrics today orders items).filter
      (fun x => decide (x.platform = p))).map
        (rankRow ((product_metrics today orders items).filter
          (fun x => decide (x.platform = p)))) from rfl]
  rw [List.length_map, List.countP_map]
  have hcount : ((product_metrics today orders items).filter
      (fun x => decide (x.platform = p))).countP
        ((fun x => decide (x.total_revenue < r.total_revenue)) ∘
          rankRow ((product_metrics today orders items).filter
            (fun x => decide (x.platform = p)))) =
      ((product_metrics today orders items).filter
      (fun x => decide (x.platform = p))).countP
        (fun x => decide (x.total_revenue < r.total_revenue)) := by
    apply List.countP_congr
    intro a _
    rfl
  rw [hcount]
  rfl

/-- C3 amended witness: the higher-revenue product row of the example
data. -/
theorem revenue_percentile_is_percent_rank_witness :
    ((kpi_product_performance 0 exOrders exItems).getD 1 dPP ∈
      kpi_product_performance 0 exOrders exItems) ∧
    ((kpi_product_performance 0 exOrders exItems).getD 1 dPP).revenue_percentile =
      (if ((kpi_product_performance 0 exOrders exItems).filter
          (fun x => decide (x.platform =
            ((kpi_product_performance 0 exOrders exItems).getD 1 dPP).platform))).length ≤ 1
       then 0
       else (((kpi_product_performance 0 exOrders exItems).filter
          (fun x => decide (x.platform =
            ((kpi_product_performance 0 exOrders exItems).getD 1 dPP).platform))).countP
            (fun x => decide (x.total_revenue <
              ((kpi_product_performance 0 exOrders exItems).getD 1 dPP).total_revenue)) : ℚ) /
        (((((kpi_product_performance 0 exOrders exItems).filter
          (fun x => decide (x.platform =
            ((kpi_product_performance 0 exOrders exItems).getD 1 dPP).platform))).length
              - 1 : ℕ)) : ℚ)) :=
  ⟨by with_unfolding_all decide,
   revenue_percentile_is_percent_rank 0 exOrders exItems _
     (by with_unfolding_all decide)⟩

/-- The date-ascending snapshot list has one row per grouped date. -/
theorem dailySnapshotAsc_length (orders : List UnifiedOrder) :
    (dailySnapshotAsc orders).length = (dailyBase orders).length := by
  simp [dailySnapshotAsc]

/-- Indexing the date-ascending snapshot list evaluates the window pass
at that index. -/
theorem dailySnapshotAsc_getD (orders : List UnifiedOrder) (i : ℕ)
    (h : i < (dailySnapshotAsc orders).length) :
    (dailySnapshotAsc orders).getD i dDS =
      snapshotAt (dailyBase orders) i
        ((dailyBase orders).getD i dDS.toDailyBaseRow) := by
  have hb : i < (dailyBase orders).length := (dailySnapshotAsc_length orders) ▸ h
  rw [List.getD_eq_getElem _ _ h, List.getD_eq_getElem _ _ hb]
  simp [dailySnapshotAsc]

/-- The grouped dates of the daily snapshot are pairwise ascending. -/
theorem dailyBase_dates_sorted (orders : List UnifiedOrder) :
    List.Pairwise (fun a b : DailyBaseRow => a.order_date ≤ b.order_date)
      (dailyBase orders) := by
  unfold dailyBase
  rw [List.pairwise_map]
  have hs := @List.sorted_mergeSort ℤ (fun a b : ℤ => decide (a ≤ b))
    (fun a b c h1 h2 => by
      simp only [decide_eq_true_eq] at h1 h2 ⊢
      omega)
    (fun a b => by
      simp only [Bool.or_eq_true, decide_eq_true_eq]
      omega)
    (((orders.filter (fun o => !o.is_cancelled)).map (·.order_date)).dedup)
  exact hs.imp (fun hab => by
    simp only [decide_eq_true_eq] at hab
    exact hab)

/-- C8: in the Daily Snapshot ordered ascending by date, each row's
`revenue_7d_avg` is the (never-null) average over the window of the
current row plus the up-to-6 immediately preceding rows; the rollup is
indeed date-ascending in window order; and over a constant-revenue
series the trailing average equals that revenue on every row, the first
included. -/
theorem revenue_7d_avg_trailing_window (orders : List UnifiedOrder) (i : ℕ)
    (h : i < (dailySnapshotAsc orders).length) :
    ((dailySnapshotAsc orders).getD i dDS).revenue_7d_avg =
      windowAvg (·.total_revenue_usd) (trailingWindow (dailyBase orders) i 7) ∧
    List.Pairwise (fun a b : DailySnapshotRow => a.order_date ≤ b.order_date)
      (dailySnapshotAsc orders) ∧
    (∀ R : ℚ, (∀ row ∈ kpi_daily_snapshot orders, row.total_revenue_usd = R) →
      ((dailySnapshotAsc orders).getD i dDS).revenue_7d_avg = R) := by
  have hlen := dailySnapshotAsc_length orders
  have hbl : i < (dailyBase orders).length := hlen ▸ h
  have hgetD : ((dailySnapshotAsc orders).getD i dDS).revenue_7d_avg =
      windowAvg (·.total_revenue_usd) (trailingWindow (dailyBase orders) i 7) := by
    rw [dailySnapshotAsc_getD orders i h]
    rfl
  refine ⟨hgetD, ?_, ?_⟩
  · rw [List.pairwise_iff_getElem]
    intro a b ha hb hab
    have hba : a < (dailyBase orders).length := hlen ▸ ha
    have hbb : b < (dailyBase orders).length := hlen ▸ hb
    have h1 : (dailySnapshotAsc orders)[a] = (dailySnapshotAsc orders).getD a dDS :=
      (List.getD_eq_getElem _ _ ha).symm
    have h2 : (dailySnapshotAsc orders)[b] = (dailySnapshotAsc orders).getD b dDS :=
      (List.getD_eq_getElem _ _ hb).symm
    rw [h1, h2, dailySnapshotAsc_getD orders a ha, dailySnapshotAsc_getD orders b hb]
    show ((dailyBase orders).getD a dDS.toDailyBaseRow).order_date ≤
      ((dailyBase orders).getD b dDS.toDailyBaseRow).order_date
    rw [List.getD_eq_getElem _ _ hba, List.getD_eq_getElem _ _ hbb]
    exact List.pairwise_iff_getElem.mp (dailyBase_dates_sorted orders) a b hba hbb hab
  · intro R hR
    have hbase : ∀ x ∈ dailyBase orders, x.total_revenue_usd = R := by
      intro x hx
      obtain ⟨j, hj, hxe⟩ := List.mem_iff_getElem.mp hx
      have hja : j < (dailySnapshotAsc orders).length := hlen ▸ hj
      have hmem : (dailySnapshotAsc orders).getD j dDS ∈ kpi_daily_snapshot orders := by
        unfold kpi_daily_snapshot
        rw [List.mem_reverse, List.getD_eq_getElem _ _ hja]
        exact List.getElem_mem hja
      have hval := hR _ hmem
      rw [dailySnapshotAsc_getD orders j hja] at hval
      have hval2 : ((dailyBase orders).getD j dDS.toDailyBaseRow).total_revenue_usd = R :=
        hval
      rw [List.getD_eq_getElem _ _ hj] at hval2
      rw [← hxe]
      exact hval2
    have hw : ∀ y ∈ trailingWindow (dailyBase orders) i 7, y.total_revenue_usd = R :=
      fun y hy => hbase y (List.mem_of_mem_take (List.mem_of_mem_drop hy))
    have hwlen : 0 < (trailingWindow (dailyBase orders) i 7).length := by
      unfold trailingWindow
      rw [List.length_drop, List.length_take]
      omega
    rw [hgetD]
    unfold windowAvg
    have hrep : (trailingWindow (dailyBase orders) i 7).map (·.total_revenue_usd) =
        List.replicate (trailingWindow (dailyBase orders) i 7).length R := by
      have hall : ∀ b ∈ (trailingWindow (dailyBase orders) i 7).map
          (·.total_revenue_usd), b = R := by
        intro b hb
        obtain ⟨y, hy, rfl⟩ := List.mem_map.mp hb
        exact hw y hy
      have := List.eq_replicate_of_mem hall
      rwa [List.length_map] at this
    rw [hrep, List.sum_replicate, nsmul_eq_mul]
    exact mul_div_cancel_left₀ R
      (Nat.cast_ne_zero.mpr (Nat.pos_iff_ne_zero.mp hwlen))

/-- C8 witness: the single-date example series with constant revenue. -/
theorem revenue_7d_avg_trailing_window_witness :
    (0 < (dailySnapshotAsc (int_unified_orders exRawB)).length) ∧
    ((dailySnapshotAsc (int_unified_orders exRawB)).getD 0 dDS).revenue_7d_avg = 200 :=
  ⟨by with_unfolding_all decide,
   (revenue_7d_avg_trailing_window (int_unified_orders exRawB) 0
      (by with_unfolding_all decide)).2.2 200 (by with_unfolding_all decide)⟩

/-- C9 counterexample: with both bounds omitted and `limit = 30`, the
facade returns a row dated `today - 30`, which is outside the last 30
calendar days ending today — the defaulted window `[today - limit,
today]` spans `limit + 1` calendar days. -/
theorem default_window_exceeds_limit_days :
    get_daily_snapshots [exSnapRow] none none 30 100 = [exSnapRow] ∧
    ¬ lastCalendarDays 100 30 exSnapRow.order_date := by
  constructor
  · with_unfolding_all decide
  · with_unfolding_all decide

/-- C9 (amended): `get_daily_snapshots` returns only rows whose
`order_date` lies in the resolved window `[start, end]`, sorted by date
descending and capped at `limit`; when both bounds are omitted the
resolved window is `[today - limit, today]` — the last `limit + 1`
calendar days ending today. -/
theorem daily_snapshots_query_contract (table : List DailySnapshotRow)
    (sd ed : Option ℤ) (limit : ℕ) (today : ℤ) (r : DailySnapshotRow)
    (hr : r ∈ get_daily_snapshots table sd ed limit today) :
    (sd.getD (ed.getD today - (limit : ℤ)) ≤ r.order_date ∧
      r.order_date ≤ ed.getD today) ∧
    (get_daily_snapshots table sd ed limit today).length ≤ limit ∧
    List.Pairwise (fun a b : DailySnapshotRow => b.order_date ≤ a.order_date)
      (get_daily_snapshots table sd ed limit today) ∧
    (sd = none → ed = none →
      sd.getD (ed.getD today - (limit : ℤ)) = today - (limit : ℤ) ∧
      ed.getD today = today) := by
  have hsorted : List.Pairwise
      (fun a b : DailySnapshotRow => b.order_date ≤ a.order_date)
      ((table.filter (fun x => decide (sd.getD (ed.getD today - (limit : ℤ)) ≤
          x.order_date ∧ x.order_date ≤ ed.getD today))).mergeSort
        (fun a b => decide (b.order_date ≤ a.order_date))) := by
    have hs := @List.sorted_mergeSort DailySnapshotRow
      (fun a b : DailySnapshotRow => decide (b.order_date ≤ a.order_date))
      (fun a b c h1 h2 => by
        simp only [decide_eq_true_eq] at h1 h2 ⊢
        omega)
      (fun a b => by
        simp only [Bool.or_eq_true, decide_eq_true_eq]
        omega)
      (table.filter (fun x => decide (sd.getD (ed.getD today - (limit : ℤ)) ≤
          x.order_date ∧ x.order_date ≤ ed.getD today)))
    exact hs.imp (fun hab => by
      simp only [decide_eq_true_eq] at hab
      exact hab)
  refine ⟨?_, ?_, ?_, ?_⟩
  · have hr2 := List.mem_of_mem_take hr
    have hr3 := List.mem_mergeSort.mp hr2
    have hr4 := (List.mem_filter.mp hr3).2
    simp only [decide_eq_true_eq] at hr4
    exact hr4
  · exact List.length_take_le _ _
  · exact hsorted.sublist (List.take_sublist _ _)
  · intro h1 h2
    subst h1
    subst h2
    exact ⟨rfl, rfl⟩

/-- C9 amended witness: the single-row example table with defaulted
bounds. -/
theorem daily_snapshots_query_contract_witness :
    (exSnapRow ∈ get_daily_snapshots [exSnapRow] none none 30 100) ∧
    ((((none : Option ℤ).getD ((none : Option ℤ).getD 100 - ((30 : ℕ) : ℤ)) ≤
        exSnapRow.order_date ∧
       exSnapRow.order_date ≤ (none : Option ℤ).getD 100) ∧
      (get_daily_snapshots [exSnapRow] none none 30 100).length ≤ 30 ∧
      List.Pairwise (fun a b : DailySnapshotRow => b.order_date ≤ a.order_date)
        (get_daily_snapshots [exSnapRow] none none 30 100) ∧
      ((none : Option ℤ) = none → (none : Option ℤ) = none →
        (none : Option ℤ).getD ((none : Option ℤ).getD 100 - ((30 : ℕ) : ℤ)) =
          100 - ((30 : ℕ) : ℤ) ∧
        (none : Option ℤ).getD 100 = 100))) :=
  ⟨by with_unfolding_all decide,
   daily_snapshots_query_contract [exSnapRow] none none 30 100 exSnapRow
     (by with_unfolding_all decide)⟩

end DataPulse
